import Mathlib

/-!
Shallow embedding of smolagents `src/smolagents/logger.py`: the step data
model (`ActionStep`, `PlanningStep`, `TaskStep`, `SystemPromptStep`), the
step-to-message projection, and the trace store (`AgentLogger`) with its
`log_step`, `reset`, `get_succinct_logs` and `replay` operations.

Python runtime failures (AttributeError, IndexError, AssertionError,
TypeError) are modelled with an explicit `Except PyError` result; pure
functions that cannot fail keep a plain return type.
-/

set_option autoImplicit false

/-- Modelled from the spec: `MessageRole` lives in `smolagents.models`, which
is not among the provided sources; section 3 of the spec fixes the closed
role set system / user / assistant / tool-response. -/
inductive MessageRole where
  | system
  | user
  | assistant
  | toolResponse
  deriving DecidableEq, Repr

/-- One structured content part of a message: a text part
`\x7b"type": "text", "text": t\x7d` or an image part
`\x7b"type": "image", "image": i\x7d` (logger.py lines 92, 125-132, 160-163). -/
inductive ContentPart where
  | text (t : String)
  | image (i : String)
  deriving DecidableEq, Repr

/-- Message content as used in logger.py: a plain string, a list of parts, or
the raw `agent_memory` value (a Python list of str-to-str dicts, modelled as
association lists) passed through unchanged at line 89. -/
inductive Content where
  | str (s : String)
  | parts (ps : List ContentPart)
  | raw (mem : List (List (String × String)))
  deriving DecidableEq, Repr

/-- `Message` dataclass (logger.py lines 21-27): a role together with content.
`Message.dict` is `asdict`, which preserves both fields, so the structure
itself stands for the emitted dict. -/
structure Message where
  role : MessageRole
  content : Content
  deriving DecidableEq, Repr

/-- `ToolCall` dataclass (logger.py lines 30-44). `arguments` is the textual
rendering of `make_json_serializable(self.arguments)`; the serializer is an
external collaborator (spec section 6), so the field carries its result. -/
structure ToolCall where
  name : String
  arguments : String
  id : String
  deriving DecidableEq, Repr

/-- Textual form of `ToolCall.dict()` (logger.py lines 36-44): the fixed
envelope with keys id, type = function and the nested function dict. Braces
and single quotes of the Python repr are written with escapes. -/
def ToolCall.reprDict (tc : ToolCall) : String :=
  "\x7b\x27id\x27: \x27" ++ tc.id ++ "\x27, \x27type\x27: \x27function\x27, "
    ++ "\x27function\x27: \x7b\x27name\x27: \x27" ++ tc.name
    ++ "\x27, \x27arguments\x27: " ++ tc.arguments ++ "\x7d\x7d"

/-- Python `str([tc.dict() for tc in tool_calls])` (logger.py line 97): the
string rendering of the serialized tool-call list. -/
def reprToolCallList (tcs : List ToolCall) : String :=
  "[" ++ String.intercalate ", " (tcs.map ToolCall.reprDict) ++ "]"

/-- Modelled from the spec: `AgentError` lives in `smolagents.utils`, outside
the provided sources; the spec (section 6) gives it a `describe()` string used
by `str(self.error)` at logger.py line 104. -/
structure AgentError where
  describe : String
  deriving DecidableEq, Repr

/-- The error message body built at logger.py lines 102-106. -/
def errorRetryText (e : AgentError) : String :=
  "Error:\n" ++ e.describe
    ++ "\nNow let\x27s retry: take care not to repeat previous errors! "
    ++ "If you have retried several times, try a completely different approach.\n"

/-- Python runtime failures that the embedded operations can raise. -/
inductive PyError where
  | attributeError (name : String)
  | indexError
  | assertionError (msg : String)
  | typeError (msg : String)
  deriving DecidableEq, Repr

/-- `ActionStep` dataclass (logger.py lines 57-69). The float-valued timing
fields are never inspected by any operation under verification and are
modelled as integers; `action_output` is likewise opaque payload. -/
structure ActionStep where
  agent_memory : Option (List (List (String × String))) := none
  tool_calls : Option (List ToolCall) := none
  start_time : Option Int := none
  end_time : Option Int := none
  step_number : Option Int := none
  error : Option AgentError := none
  duration : Option Int := none
  llm_output : Option String := none
  observations : Option String := none
  observations_images : Option (List String) := none
  action_output : Option String := none
  deriving DecidableEq, Repr

/-- `ActionStep.to_messages` (logger.py lines 86-135), translated one guarded
append at a time.  The error / observation block (lines 101-121) is a single
match on `(error, tool_calls, observations)` reproducing the nested Python
conditionals: with an error and non-null `tool_calls` the code reads
`self.tool_calls[0]`, which raises IndexError on an empty list, and likewise
for the observation branch. -/
def ActionStep.to_messages (s : ActionStep) (summary_mode return_memory : Bool) :
    Except PyError (List Message) := do
  let memory : List Message := []
  let memory : List Message :=
    match s.agent_memory, return_memory with
    | some mem, true => memory ++ [⟨MessageRole.system, Content.raw mem⟩]
    | _, _ => memory
  let memory : List Message :=
    match s.llm_output, summary_mode with
    | some out, false =>
        memory ++ [⟨MessageRole.assistant, Content.parts [ContentPart.text out.trim]⟩]
    | _, _ => memory
  let memory : List Message :=
    match s.tool_calls with
    | some tcs =>
        memory ++ [⟨MessageRole.assistant, Content.parts [ContentPart.text (reprToolCallList tcs)]⟩]
    | none => memory
  let memory : List Message ←
    match s.error, s.tool_calls, s.observations with
    | some e, none, _ =>
        pure (memory ++ [⟨MessageRole.assistant, Content.parts [ContentPart.text (errorRetryText e)]⟩])
    | some _, some [], _ => Except.error PyError.indexError
    | some e, some (tc :: _), _ =>
        pure (memory ++
          [⟨MessageRole.toolResponse, Content.str ("Call id: " ++ tc.id ++ "\n" ++ errorRetryText e)⟩])
    | none, some [], some _ => Except.error PyError.indexError
    | none, some (tc :: _), some obs =>
        pure (memory ++
          [⟨MessageRole.toolResponse, Content.str ("Call id: " ++ tc.id ++ "\nObservation:\n" ++ obs)⟩])
    | none, _, _ => pure memory
  let memory : List Message :=
    match s.observations_images with
    | some (img :: imgs) =>
        memory ++ [⟨MessageRole.user,
          Content.parts (ContentPart.text "Here are the observed images:"
            :: (img :: imgs).map ContentPart.image)⟩]
    | _ => memory
  pure memory

/-- Messages contributed by the agent-memory guard (logger.py lines 88-90). -/
def memorySlot (s : ActionStep) (return_memory : Bool) : List Message :=
  match s.agent_memory, return_memory with
  | some mem, true => [⟨MessageRole.system, Content.raw mem⟩]
  | _, _ => []

/-- Messages contributed by the llm-output guard (logger.py lines 91-93). -/
def llmSlot (s : ActionStep) (summary_mode : Bool) : List Message :=
  match s.llm_output, summary_mode with
  | some out, false => [⟨MessageRole.assistant, Content.parts [ContentPart.text out.trim]⟩]
  | _, _ => []

/-- Messages contributed by the tool-calls guard (logger.py lines 95-99). -/
def toolCallsSlot (s : ActionStep) : List Message :=
  match s.tool_calls with
  | some tcs => [⟨MessageRole.assistant, Content.parts [ContentPart.text (reprToolCallList tcs)]⟩]
  | none => []

/-- Result of the error / observation block (logger.py lines 101-121),
including the IndexError cases on an empty non-null tool-call list. -/
def errObsSlotE (s : ActionStep) : Except PyError (List Message) :=
  match s.error, s.tool_calls, s.observations with
  | some e, none, _ =>
      Except.ok [⟨MessageRole.assistant, Content.parts [ContentPart.text (errorRetryText e)]⟩]
  | some _, some [], _ => Except.error PyError.indexError
  | some e, some (tc :: _), _ =>
      Except.ok [⟨MessageRole.toolResponse, Content.str ("Call id: " ++ tc.id ++ "\n" ++ errorRetryText e)⟩]
  | none, some [], some _ => Except.error PyError.indexError
  | none, some (tc :: _), some obs =>
      Except.ok [⟨MessageRole.toolResponse, Content.str ("Call id: " ++ tc.id ++ "\nObservation:\n" ++ obs)⟩]
  | none, _, _ => Except.ok []

/-- The error / observation messages on the non-raising paths. -/
def errObsSlot (s : ActionStep) : List Message :=
  match errObsSlotE s with
  | Except.ok l => l
  | Except.error _ => []

/-- Messages contributed by the observation-images guard
(logger.py lines 122-134); the Python truthiness test skips both a null and
an empty list. -/
def imagesSlot (s : ActionStep) : List Message :=
  match s.observations_images with
  | some (img :: imgs) =>
      [⟨MessageRole.user,
        Content.parts (ContentPart.text "Here are the observed images:"
          :: (img :: imgs).map ContentPart.image)⟩]
  | _ => []

theorem to_messages_decomp (s : ActionStep) (sm rm : Bool) :
    s.to_messages sm rm =
      Except.map
        (fun eo => memorySlot s rm ++ llmSlot s sm ++ toolCallsSlot s ++ eo ++ imagesSlot s)
        (errObsSlotE s) := by
  obtain ⟨mem, tcs, st, et, sn, err, dur, out, obs, imgs, aout⟩ := s
  cases mem <;> cases rm <;> cases out <;> cases sm <;>
    rcases tcs with _ | ⟨_ | ⟨tc, tl⟩⟩ <;> cases err <;> cases obs <;>
    rcases imgs with _ | ⟨_ | ⟨i, is⟩⟩ <;>
    simp [ActionStep.to_messages, memorySlot, llmSlot, toolCallsSlot, errObsSlotE,
      imagesSlot, Except.map, pure, Except.pure, Bind.bind, Except.bind]

/-- `PlanningStep` dataclass (logger.py lines 138-141). -/
structure PlanningStep where
  plan : String
  facts : String
  deriving DecidableEq, Repr

/-- `PlanningStep.to_messages` (logger.py lines 143-151): the facts message is
always emitted, the plan message only outside summary mode; content is a plain
string, not structured parts.  The second Bool stands for the keyword
arguments swallowed by `**kwargs`, which the body never reads. -/
def PlanningStep.to_messages (s : PlanningStep) (summary_mode : Bool) (_return_memory : Bool) :
    List Message :=
  let memory : List Message :=
    [] ++ [⟨MessageRole.assistant, Content.str ("[FACTS LIST]:\n" ++ s.facts.trim)⟩]
  if !summary_mode then
    memory ++ [⟨MessageRole.assistant, Content.str ("[PLAN]:\n" ++ s.plan.trim)⟩]
  else
    memory

/-- `TaskStep` dataclass (logger.py lines 154-157). -/
structure TaskStep where
  task : String
  task_images : Option (List String) := none
  deriving DecidableEq, Repr

/-- `TaskStep.to_messages` (logger.py lines 159-166): one user message whose
content starts with the "New task" text part, then one image part per task
image; the Python truthiness guard skips both a null and an empty list. -/
def TaskStep.to_messages (s : TaskStep) (_summary_mode : Bool) (_return_memory : Bool) :
    List Message :=
  let content : List ContentPart := [ContentPart.text ("New task:\n" ++ s.task)]
  let content : List ContentPart :=
    match s.task_images with
    | some (img :: imgs) => content ++ (img :: imgs).map ContentPart.image
    | _ => content
  [⟨MessageRole.user, Content.parts content⟩]

/-- `SystemPromptStep` dataclass (logger.py lines 169-177). -/
structure SystemPromptStep where
  system_prompt : String
  deriving DecidableEq, Repr

/-- `SystemPromptStep.to_messages` (logger.py lines 173-177). -/
def SystemPromptStep.to_messages (s : SystemPromptStep) (summary_mode : Bool) (_return_memory : Bool) :
    List Message :=
  if !summary_mode then
    [⟨MessageRole.system, Content.parts [ContentPart.text s.system_prompt.trim]⟩]
  else
    []

/-- The step variants that subclass `AgentStepLog` (logger.py lines 47-177),
as a closed sum. -/
inductive AgentStepLog where
  | action (s : ActionStep)
  | planning (s : PlanningStep)
  | task (s : TaskStep)
  | systemPrompt (s : SystemPromptStep)
  deriving DecidableEq, Repr

/-- Dynamic dispatch of `to_messages` over the step variants; only the
`ActionStep` projection can raise. -/
def AgentStepLog.to_messages : AgentStepLog → Bool → Bool → Except PyError (List Message)
  | AgentStepLog.action s, sm, rm => s.to_messages sm rm
  | AgentStepLog.planning s, sm, rm => Except.ok (s.to_messages sm rm)
  | AgentStepLog.task s, sm, rm => Except.ok (s.to_messages sm rm)
  | AgentStepLog.systemPrompt s, sm, rm => Except.ok (s.to_messages sm rm)

/-- Attribute lookup of `items` on a step object (used by
`get_succinct_logs`, logger.py line 227): the step classes are dataclasses and
none of them defines an `items` method, so Python raises AttributeError. -/
def AgentStepLog.items (_ : AgentStepLog) : Except PyError (List (String × String)) :=
  Except.error (PyError.attributeError "items")

/-- `LogLevel` enum (logger.py lines 180-183). -/
inductive LogLevel where
  | error
  | info
  | debug
  deriving DecidableEq, Repr

/-- Modelled from the spec: `ChatMessage` lives in `smolagents.models`,
outside the provided sources; it is an opaque raw model-output record
(spec sections 3 and 4.2), stored but never projected. -/
structure ChatMessage where
  raw : String
  deriving DecidableEq, Repr

/-- `AgentLogger` state (logger.py lines 186-191): the step list and the raw
model-output list.  The `console` attribute is the external render sink and
carries no state relevant to any operation modelled here. -/
structure AgentLogger where
  level : LogLevel := LogLevel.info
  steps : List AgentStepLog := []
  chat_messages : List ChatMessage := []
  deriving DecidableEq, Repr

/-- `AgentLogger.reset` (logger.py lines 193-194): reassigns only `steps`. -/
def AgentLogger.reset (l : AgentLogger) : AgentLogger :=
  { l with steps := [] }

/-- `AgentLogger.log_step` (logger.py lines 207-220): with no position the
step is appended; with a position the assert demands 0 and the list becomes
`[step] + self.steps[1:]`. -/
def AgentLogger.log_step (l : AgentLogger) (step : AgentStepLog) (position : Option Int) :
    Except PyError AgentLogger :=
  match position with
  | none => Except.ok { l with steps := l.steps ++ [step] }
  | some p =>
      if p = 0 then
        Except.ok { l with steps := [step] ++ l.steps.drop 1 }
      else
        Except.error (PyError.assertionError "Position should only be 0 for system prompt.")

/-- `AgentLogger.log_chat_messages` (logger.py lines 222-224). -/
def AgentLogger.log_chat_messages (l : AgentLogger) (msg : ChatMessage) : AgentLogger :=
  { l with chat_messages := l.chat_messages ++ [msg] }

/-- `AgentLogger.get_succinct_logs` (logger.py lines 226-227): for each stored
step the comprehension evaluates `log.items()` and keeps the pairs whose key
is not agent_memory.  The steps are dataclass instances without an `items`
method, so the first iteration raises AttributeError; only an empty step list
returns normally. -/
def AgentLogger.get_succinct_logs (l : AgentLogger) :
    Except PyError (List (List (String × String))) :=
  l.steps.mapM fun log => do
    let kvs ← log.items
    pure (kvs.filter fun kv => kv.1 ≠ "agent_memory")

/-- Instance attribute names assigned by `AgentLogger.__init__`
(logger.py lines 187-191); `logger` is not among them. -/
def AgentLogger.instanceAttributes : List String :=
  ["level", "steps", "chat_messages", "console"]

/-- `AgentLogger.replay` (logger.py lines 235-281).  Its first loop iterates
`self.logger.steps` (line 243): the attribute name `logger` is never assigned
by `__init__`, so that lookup raises AttributeError before any step is
projected or any message rendered.  Were the attribute present, the loop body
(line 244) would still call `to_messages(return_memory=with_memory)` without
the required positional `summary_mode` argument, a TypeError. -/
def AgentLogger.replay (_l : AgentLogger) (_with_memory : Bool) : Except PyError (List Message) :=
  if "logger" ∈ AgentLogger.instanceAttributes then
    Except.error (PyError.typeError "to_messages() missing required argument summary_mode")
  else
    Except.error (PyError.attributeError "logger")

/-- The content reinterpretation step of the replay loop
(logger.py lines 262-266): `eval` applied to a non-string content raises
TypeError and string contents may fail to parse, and in every failing case the
bare except falls back to the single-item list holding the raw content.
`pyEval` abstracts the dynamic evaluation of a string as a list of items
(an external-interpreter collaborator). -/
def replayContentItems (pyEval : String → Option (List Content)) (c : Content) : List Content :=
  match c with
  | Content.str s =>
      match pyEval s with
      | some items => items
      | none => [c]
  | _ => [c]

/-- Sample ActionStep carrying one tool call and an observation, used by the
C1 witness. -/
def sampleObservationStep : ActionStep :=
  { tool_calls := some [⟨"search", "null", "c1"⟩], observations := some "obs" }

/-- Sample ActionStep firing the memory, empty-tool-call-list and image
guards, used by the C2 witness. -/
def sampleFullStep : ActionStep :=
  { agent_memory := some [[("role", "system")]]
    tool_calls := some []
    observations_images := some ["img1"] }

/-- C1: for every ActionStep whose projection returns, the error / observation
block contributes at most one message, never both: with an error and null
toolCalls it is the assistant text message holding the retry text; with an
error and non-null toolCalls it is a tool-response message whose content is
"Call id: " followed by the first tool-call id; with no error, a tool-response
observation message appears exactly when both observations and toolCalls are
non-null (and the list non-empty, the case C10 captures). -/
theorem actionStep_error_observation_exclusive (s : ActionStep) (sm rm : Bool)
    (ms : List Message) (h : s.to_messages sm rm = Except.ok ms) :
    (∃ pre post, ms = pre ++ errObsSlot s ++ post)
    ∧ (errObsSlot s).length ≤ 1
    ∧ (∀ e, s.error = some e → s.tool_calls = none →
        errObsSlot s = [⟨MessageRole.assistant, Content.parts [ContentPart.text (errorRetryText e)]⟩])
    ∧ (∀ e tc rest, s.error = some e → s.tool_calls = some (tc :: rest) →
        errObsSlot s = [⟨MessageRole.toolResponse,
          Content.str ("Call id: " ++ tc.id ++ "\n" ++ errorRetryText e)⟩])
    ∧ (∀ o tc rest, s.error = none → s.observations = some o → s.tool_calls = some (tc :: rest) →
        errObsSlot s = [⟨MessageRole.toolResponse,
          Content.str ("Call id: " ++ tc.id ++ "\nObservation:\n" ++ o)⟩])
    ∧ (s.error = none →
        (errObsSlot s ≠ [] ↔ s.observations.isSome ∧ ∃ tc rest, s.tool_calls = some (tc :: rest))) := by
  have hd := to_messages_decomp s sm rm
  rw [h] at hd
  refine ⟨?_, ?_, ?_, ?_, ?_, ?_⟩
  case _ =>
    cases he : errObsSlotE s with
    | error e => rw [he] at hd; simp [Except.map] at hd
    | ok eo =>
      rw [he] at hd
      simp only [Except.map, Except.ok.injEq] at hd
      refine ⟨memorySlot s rm ++ llmSlot s sm ++ toolCallsSlot s, imagesSlot s, ?_⟩
      simp [errObsSlot, he, hd, List.append_assoc]
  all_goals
    clear h hd
    obtain ⟨mem, tcs, st, et, sn, err, dur, out, obs, imgs, aout⟩ := s
    cases err <;> rcases tcs with _ | ⟨_ | ⟨tc0, tl⟩⟩ <;> cases obs <;>
      simp [errObsSlot, errObsSlotE]

/-- Witness for the C1 theorem at `sampleObservationStep`. -/
theorem actionStep_error_observation_exclusive_witness :
    (errObsSlot sampleObservationStep).length ≤ 1 :=
  (actionStep_error_observation_exclusive sampleObservationStep false false
    [⟨MessageRole.assistant, Content.parts
        [ContentPart.text (reprToolCallList [⟨"search", "null", "c1"⟩])]⟩,
     ⟨MessageRole.toolResponse, Content.str "Call id: c1\nObservation:\nobs"⟩]
    (by rfl)).2.1

/-- C2: whenever the ActionStep projection returns, its result is exactly the
concatenation, in this fixed order, of the agent-memory slot (raw pass-through
system message, gated on includeMemory), the trimmed llm-output assistant
message (gated on summary mode), the assistant message holding the string dump
of the serialized tool-call list (gated on toolCalls being non-null, even when
empty), the error-or-observation slot, and the observed-images user message. -/
theorem actionStep_to_messages_order (s : ActionStep) (sm rm : Bool)
    (ms : List Message) (h : s.to_messages sm rm = Except.ok ms) :
    ms = memorySlot s rm ++ llmSlot s sm ++ toolCallsSlot s ++ errObsSlot s ++ imagesSlot s := by
  have hd := to_messages_decomp s sm rm
  rw [h] at hd
  cases he : errObsSlotE s with
  | error e => rw [he] at hd; simp [Except.map] at hd
  | ok eo =>
    rw [he] at hd
    simp only [Except.map, Except.ok.injEq] at hd
    simp [errObsSlot, he, hd, List.append_assoc]

/-- Witness for the C2 theorem at `sampleFullStep`. -/
theorem actionStep_to_messages_order_witness :
    ([⟨MessageRole.system, Content.raw [[("role", "system")]]⟩,
      ⟨MessageRole.assistant, Content.parts [ContentPart.text (reprToolCallList [])]⟩,
      ⟨MessageRole.user, Content.parts
        [ContentPart.text "Here are the observed images:", ContentPart.image "img1"]⟩] : List Message)
      = memorySlot sampleFullStep true ++ llmSlot sampleFullStep false
        ++ toolCallsSlot sampleFullStep ++ errObsSlot sampleFullStep ++ imagesSlot sampleFullStep :=
  actionStep_to_messages_order sampleFullStep false true
    [⟨MessageRole.system, Content.raw [[("role", "system")]]⟩,
     ⟨MessageRole.assistant, Content.parts [ContentPart.text (reprToolCallList [])]⟩,
     ⟨MessageRole.user, Content.parts
       [ContentPart.text "Here are the observed images:", ContentPart.image "img1"]⟩]
    (by rfl)

/-- C3: the claim says `get_succinct_logs` returns the step dict-exports with
the agent_memory key removed; the code instead evaluates `log.items()` on each
stored step object, and the step dataclasses define no `items` method, so any
non-empty store raises AttributeError and only an empty store returns. -/
theorem get_succinct_logs_spec (l : AgentLogger) :
    l.get_succinct_logs =
      (if l.steps = [] then Except.ok []
       else Except.error (PyError.attributeError "items")) := by
  rcases l with ⟨lv, steps, cm⟩
  cases steps <;>
    simp [AgentLogger.get_succinct_logs, AgentStepLog.items, List.mapM, List.mapM.loop,
      Bind.bind, Except.bind, pure, Except.pure]

/-- C4: the claim says replay consumes the concatenated projections of the
stored steps with summaryMode false; the code instead reads
`self.logger.steps`, an attribute `__init__` never assigns, so every replay
call raises AttributeError before projecting a single step. -/
theorem replay_always_attribute_error (l : AgentLogger) (with_memory : Bool) :
    l.replay with_memory = Except.error (PyError.attributeError "logger") := rfl

/-- C5: the claim says a message with unparsable content degrades to a single
raw item and the replay proceeds; the code never reaches its content
fallback (logger.py lines 262-266, embedded as `replayContentItems`), because
replay raises AttributeError on the missing `logger` attribute first —
evaluated here on a store holding one task step. -/
theorem replay_crashes_before_rendering :
    AgentLogger.replay { steps := [AgentStepLog.task ⟨"T", none⟩] } false
      = Except.error (PyError.attributeError "logger")
    ∧ (∀ pyEval c, pyEval c = none → replayContentItems pyEval (Content.str c) = [Content.str c]) :=
  ⟨rfl, fun pyEval c hc => by simp [replayContentItems, hc]⟩

/-- C6: `log_step` with an explicit position asserts the position is 0, and at
0 replaces the head of the step list, leaving the tail untouched and the rest
of the logger state unchanged. -/
theorem log_step_position_spec (l : AgentLogger) (step : AgentStepLog) (p : Int) :
    l.log_step step (some p) =
      (if p = 0 then Except.ok { l with steps := step :: l.steps.drop 1 }
       else Except.error (PyError.assertionError "Position should only be 0 for system prompt.")) := by
  by_cases hp : p = 0 <;> simp [AgentLogger.log_step, hp]

/-- C7: TaskStep always projects to exactly one user message whose content
starts with the "New task" text part followed by one image part per task
image, in order; at task "T" with images "a", "b" the message has exactly the
three parts. -/
theorem taskStep_to_messages_spec (s : TaskStep) (sm rm : Bool) :
    s.to_messages sm rm =
      [⟨MessageRole.user, Content.parts (ContentPart.text ("New task:\n" ++ s.task)
        :: (match s.task_images with
            | some (img :: imgs) => (img :: imgs).map ContentPart.image
            | _ => []))⟩]
    ∧ TaskStep.to_messages ⟨"T", some ["a", "b"]⟩ sm rm =
        [⟨MessageRole.user, Content.parts [ContentPart.text "New task:\nT",
          ContentPart.image "a", ContentPart.image "b"]⟩] := by
  constructor
  · rcases s with ⟨t, imgs⟩
    rcases imgs with _ | ⟨_ | ⟨i, is⟩⟩ <;> simp [TaskStep.to_messages]
  · rfl

/-- C8: PlanningStep in summary mode projects to exactly the facts assistant
message; outside summary mode to the facts message followed by the plan
message; and the memory flag has no effect on the result. -/
theorem planningStep_to_messages_spec (s : PlanningStep) (rm rm2 : Bool) :
    s.to_messages true rm =
      [⟨MessageRole.assistant, Content.str ("[FACTS LIST]:\n" ++ s.facts.trim)⟩]
    ∧ s.to_messages false rm =
      [⟨MessageRole.assistant, Content.str ("[FACTS LIST]:\n" ++ s.facts.trim)⟩,
       ⟨MessageRole.assistant, Content.str ("[PLAN]:\n" ++ s.plan.trim)⟩]
    ∧ (∀ sm : Bool, s.to_messages sm rm = s.to_messages sm rm2) :=
  ⟨rfl, rfl, fun _ => rfl⟩

/-- C9: reset empties the step list and leaves the raw model-output list (and
the log level) exactly as they were. -/
theorem reset_clears_steps_preserves_chat (l : AgentLogger) :
    (AgentLogger.reset l).steps = []
    ∧ (AgentLogger.reset l).chat_messages = l.chat_messages
    ∧ (AgentLogger.reset l).level = l.level :=
  ⟨rfl, rfl, rfl⟩

/-- C10: the ActionStep projection raises IndexError exactly when tool_calls
is the empty (non-null) list while an error or an observation is set — the
branches that read `tool_calls[0]` — and returns a message list in every
other case. -/
theorem actionStep_to_messages_partiality (s : ActionStep) (sm rm : Bool) :
    (s.to_messages sm rm = Except.error PyError.indexError
      ↔ s.tool_calls = some [] ∧ (s.error.isSome ∨ s.observations.isSome))
    ∧ ((∃ ms, s.to_messages sm rm = Except.ok ms)
      ↔ ¬ (s.tool_calls = some [] ∧ (s.error.isSome ∨ s.observations.isSome))) := by
  have hd := to_messages_decomp s sm rm
  obtain ⟨mem, tcs, st, et, sn, err, dur, out, obs, imgs, aout⟩ := s
  cases err <;> rcases tcs with _ | ⟨_ | ⟨tc, tl⟩⟩ <;> cases obs <;>
    simp_all [errObsSlotE, Except.map]
